import Mathlib

/-!
# Contact-submission handler of the portfolio backend

A shallow embedding of `src/server.js` (route `POST /api/contact`) and of the
submit handler of `src/script.js`, with the statements of the specification
proved or refuted over it.

Modelling decisions:

* A payload field is a JavaScript value that is `undefined` (absent), `null`
  or a string; other JSON values are outside the modelled input domain.
* JavaScript strings are modelled by Lean strings (sequences of code points).
  The email pattern has no `u` flag and works on UTF-16 code units; since no
  code unit of a surrogate pair is white space, `@` or `.`, matching by code
  point accepts the same strings.
* The record store (mongoose), the mail library (nodemailer), the process
  environment and the clock are parameters of the handler (`Env`); the
  effects of one request are recorded in an explicit `World`.
-/

namespace Portfolio

/-! ## JavaScript values and truthiness -/

/-- The JavaScript values a payload field or an environment variable holds. -/
inductive JSVal where
  | undefined : JSVal
  | null : JSVal
  | str (s : String) : JSVal
  deriving DecidableEq, Repr

/-- JavaScript truthiness: `undefined`, `null` and `''` are falsy. -/
def JSVal.truthy : JSVal → Bool
  | .str s => !(s.toList.isEmpty)
  | _ => false

/-- JavaScript `ToString`, as applied by `RegExp.prototype.test` and by
template literals. -/
def JSVal.toStr : JSVal → String
  | .undefined => "undefined"
  | .null => "null"
  | .str s => s

/-- JavaScript `a || b`: `a` when it is truthy, otherwise `b`. -/
def JSVal.or (a b : JSVal) : JSVal :=
  if a.truthy then a else b

/-! ## Regular expressions of the shape used by the source -/

/-- The code points matched by `\s` in an ECMAScript pattern: the white space
and the line terminator code points. -/
def isWhiteSpace (c : Char) : Bool :=
  let n := c.toNat
  n == 0x09 || n == 0x0A || n == 0x0B || n == 0x0C || n == 0x0D || n == 0x20
    || n == 0xA0 || n == 0x1680 || (0x2000 ≤ n && n ≤ 0x200A)
    || n == 0x2028 || n == 0x2029 || n == 0x202F || n == 0x205F
    || n == 0x3000 || n == 0xFEFF

/-- One member of a character class: the escape `\s` or a literal. -/
inductive ClassItem where
  | whitespace : ClassItem
  | ch (c : Char) : ClassItem
  deriving DecidableEq, Repr

/-- Whether a character belongs to a class member. -/
def ClassItem.test : ClassItem → Char → Bool
  | .whitespace, x => isWhiteSpace x
  | .ch c, x => x == c

/-- An atom of a pattern: a literal character or a negated class `[^...]`. -/
inductive Atom where
  | lit (c : Char) : Atom
  | negClass (items : List ClassItem) : Atom
  deriving DecidableEq, Repr

/-- Whether an atom matches one character. -/
def Atom.test : Atom → Char → Bool
  | .lit c, x => x == c
  | .negClass items, x => !(items.any fun i => i.test x)

/-- A quantified atom: exactly once, or `+` (once or more). -/
inductive Piece where
  | one (a : Atom) : Piece
  | plus (a : Atom) : Piece
  deriving DecidableEq, Repr

/-- Backtracking match of a sequence of pieces against the whole remaining
input: the pattern is anchored by `^` in front and by `$` behind. -/
def matchPieces : List Piece → List Char → Bool
  | [], [] => true
  | [], _ :: _ => false
  | _ :: _, [] => false
  | .one a :: rest, c :: s => a.test c && matchPieces rest s
  | .plus a :: rest, c :: s =>
      a.test c && (matchPieces (.plus a :: rest) s || matchPieces rest s)

/-- The class `[^\s@]`. -/
def notSpaceNorAt : Atom := .negClass [.whitespace, .ch '@']

/-- The pattern `/^[^\s@]+@[^\s@]+\.[^\s@]+$/` of `server.js` (line 82). -/
def emailRegex : List Piece :=
  [.plus notSpaceNorAt, .one (.lit '@'), .plus notSpaceNorAt, .one (.lit '.'),
   .plus notSpaceNorAt]

/-- The method `RegExp.prototype.test` for an anchored pattern without flags. -/
def regexTest (re : List Piece) (s : String) : Bool :=
  matchPieces re s.toList

/-! ## Literal text of the two mail templates -/

/-- Literal text number 0 of the template of `notifyHtml`. -/
def notifyHtmlText0 : String :=
  "\n"
    ++ "                <div style=\"font-family: Arial, sans-serif; max-width: 600px; margin: 0 auto;\">\n"
    ++ "                    <h2 style=\"color: #3b82f6;\">New Contact Form Submission</h2>\n"
    ++ "                    <div style=\"background: #f9fafb; padding: 20px; border-radius: 8px; margin: 20px 0;\">\n"
    ++ "                        <p><strong>Name:</strong> "

/-- Literal text number 1 of the template of `notifyHtml`. -/
def notifyHtmlText1 : String :=
  "</p>\n"
    ++ "                        <p><strong>Email:</strong> "

/-- Literal text number 2 of the template of `notifyHtml`. -/
def notifyHtmlText2 : String :=
  "</p>\n"
    ++ "                        <p><strong>Subject:</strong> "

/-- Literal text number 3 of the template of `notifyHtml`. -/
def notifyHtmlText3 : String :=
  "</p>\n"
    ++ "                        <p><strong>Message:</strong></p>\n"
    ++ "                        <div style=\"background: white; padding: 15px; border-radius: 4px; border-left: 4px solid #3b82f6;\">\n"
    ++ "                            "

/-- Literal text number 4 of the template of `notifyHtml`. -/
def notifyHtmlText4 : String :=
  "\n"
    ++ "                        </div>\n"
    ++ "                    </div>\n"
    ++ "                    <p style=\"color: #6b7280; font-size: 14px;\">\n"
    ++ "                        Sent from your portfolio website at "

/-- Literal text number 5 of the template of `notifyHtml`. -/
def notifyHtmlText5 : String :=
  "\n"
    ++ "                    </p>\n"
    ++ "                </div>\n"
    ++ "            "

/-- Literal text number 0 of the template of `replyHtml`. -/
def replyHtmlText0 : String :=
  "\n"
    ++ "                <div style=\"font-family: Arial, sans-serif; max-width: 600px; margin: 0 auto;\">\n"
    ++ "                    <h2 style=\"color: #3b82f6;\">Thank You for Your Message!</h2>\n"
    ++ "                    <p>Hi "

/-- Literal text number 1 of the template of `replyHtml`. -/
def replyHtmlText1 : String :=
  ",</p>\n"
    ++ "                    <p>Thank you for reaching out through my portfolio website. I\x27ve received your message and will get back to you as soon as possible.</p>\n"
    ++ "                    \n"
    ++ "                    <div style=\"background: #f9fafb; padding: 20px; border-radius: 8px; margin: 20px 0;\">\n"
    ++ "                        <h3 style=\"margin-top: 0;\">Your Message:</h3>\n"
    ++ "                        <p><strong>Subject:</strong> "

/-- Literal text number 2 of the template of `replyHtml`. -/
def replyHtmlText2 : String :=
  "</p>\n"
    ++ "                        <div style=\"background: white; padding: 15px; border-radius: 4px;\">\n"
    ++ "                            "

/-- Literal text number 3 of the template of `replyHtml`. -/
def replyHtmlText3 : String :=
  "\n"
    ++ "                        </div>\n"
    ++ "                    </div>\n"
    ++ "                    \n"
    ++ "                    <p>Best regards,<br>Adnan Ali</p>\n"
    ++ "                    <p style=\"color: #6b7280; font-size: 14px;\">\n"
    ++ "                        This is an automated response. Please do not reply to this email.\n"
    ++ "                    </p>\n"
    ++ "                </div>\n"
    ++ "            "


/-! ## Data model of the handler -/

/-- The four fields destructured from `req.body` (line 71). -/
structure Body where
  name : JSVal
  email : JSVal
  subject : JSVal
  message : JSVal
  deriving DecidableEq, Repr

/-- A document of the `Contact` model (`contactSchema`, lines 32-39). -/
structure ContactDoc where
  name : String
  email : String
  subject : String
  message : String
  createdAt : Nat
  status : String
  deriving DecidableEq, Repr

/-- The argument of `transporter.sendMail`: `from_` and `to_` are the keys
`from` and `to`, which are reserved words here. -/
structure MailOptions where
  from_ : JSVal
  to_ : JSVal
  subject : String
  html : String
  deriving DecidableEq, Repr

/-- One call of `transporter.sendMail` and whether it resolved. -/
structure SendAttempt where
  mail : MailOptions
  delivered : Bool
  deriving DecidableEq, Repr

/-- The HTTP answer: status code and the JSON body `{success, message}`. -/
structure Response where
  status : Nat
  success : Bool
  message : String
  deriving DecidableEq, Repr

/-- The argument of `nodemailer.createTransporter` (lines 45-51). -/
structure TransportOptions where
  service : String
  user : JSVal
  pass : JSVal
  deriving DecidableEq, Repr

/-- A transporter object of the mail library: `sendMail k m` is the outcome
of the call number `k` of the request, with argument `m`; an error carries
the text of the thrown value. -/
structure Transporter where
  sendMail : Nat → MailOptions → Except String Unit

/-- The module object bound by `require('nodemailer')`: the value of its
property `createTransporter`, when the module has one. -/
structure Nodemailer where
  createTransporter : Option (TransportOptions → Except String Transporter)

/-- What the handler reads from outside during one request. -/
structure Env where
  /-- The variable `process.env.EMAIL_USER`. -/
  EMAIL_USER : JSVal
  /-- The variable `process.env.EMAIL_PASS`. -/
  EMAIL_PASS : JSVal
  /-- The variable `process.env.RECIPIENT_EMAIL`. -/
  RECIPIENT_EMAIL : JSVal
  /-- The value of `mongoose.connection.readyState`. -/
  readyState : Nat
  /-- Outcome of `contactMessage.save()` for a document. -/
  save : ContactDoc → Except String Unit
  /-- The mail library. -/
  nodemailer : Nodemailer
  /-- Milliseconds between the start of the request and `Date.now()` in the
  schema default of `createdAt`; the clock does not run backwards. -/
  elapsed : Nat
  /-- The value of `new Date().toLocaleString()` on line 123. -/
  localeString : String

/-- The state the handler acts on. -/
structure World where
  /-- Time at which the request starts, in milliseconds. -/
  clock : Nat
  /-- The documents of the contacts collection, oldest first. -/
  store : List ContactDoc
  /-- The calls of `sendMail`, oldest first. -/
  outbox : List SendAttempt
  /-- The lines written by `console.log` and `console.error`. -/
  console : List String
  deriving DecidableEq, Repr

/-! ## The handler of `POST /api/contact` -/

/-- The call `message.replace(/\n/g, '<br>')` on a string. -/
def replaceNewlines (message : String) : String :=
  String.join (message.toList.map fun c => if c = '\n' then "<br>" else String.singleton c)

/-- The expression `message.replace(/\n/g, '<br>')` on a payload field:
`undefined` and `null` have no property `replace`. -/
def JSVal.replaceNewlines : JSVal → Except String String
  | .str s => .ok (Portfolio.replaceNewlines s)
  | _ => .error "TypeError: Cannot read properties of undefined (reading \x27replace\x27)"

/-- The function `createTransporter` (lines 44-52). -/
def createTransporter (env : Env) : Except String Transporter :=
  match env.nodemailer.createTransporter with
  | none => .error "TypeError: nodemailer.createTransporter is not a function"
  | some f => f { service := "gmail", user := env.EMAIL_USER, pass := env.EMAIL_PASS }

/-- The html of the owner notification (lines 110-126). -/
def notifyHtml (name email subject : JSVal) (message : String) (localeString : String) : String :=
  notifyHtmlText0 ++ name.toStr ++ notifyHtmlText1 ++ email.toStr ++ notifyHtmlText2
    ++ subject.toStr ++ notifyHtmlText3 ++ message ++ notifyHtmlText4 ++ localeString
    ++ notifyHtmlText5

/-- The html of the auto-reply (lines 134-153). -/
def replyHtml (name subject : JSVal) (message : String) : String :=
  replyHtmlText0 ++ name.toStr ++ replyHtmlText1 ++ subject.toStr ++ replyHtmlText2
    ++ message ++ replyHtmlText3

/-- The object `mailOptionsToYou` (lines 106-127). -/
def mailOptionsToYou (env : Env) (body : Body) : Except String MailOptions :=
  match body.message.replaceNewlines with
  | .error e => .error e
  | .ok message =>
    .ok { from_ := env.EMAIL_USER
          to_ := env.RECIPIENT_EMAIL.or env.EMAIL_USER
          subject := "Portfolio Contact: " ++ body.subject.toStr
          html := notifyHtml body.name body.email body.subject message env.localeString }

/-- The object `mailOptionsToSender` (lines 130-154). -/
def mailOptionsToSender (env : Env) (body : Body) : Except String MailOptions :=
  match body.message.replaceNewlines with
  | .error e => .error e
  | .ok message =>
    .ok { from_ := env.EMAIL_USER
          to_ := body.email
          subject := "Thank you for contacting me!"
          html := replyHtml body.name body.subject message }

/-- The statement `await transporter.sendMail(m)`: the attempt is recorded in
the outbox, and a rejection is thrown. -/
def sendMail (t : Transporter) (k : Nat) (m : MailOptions) (w : World) :
    World × Except String Unit :=
  match t.sendMail k m with
  | .ok _ => ({ w with outbox := w.outbox ++ [⟨m, true⟩] }, .ok ())
  | .error e => ({ w with outbox := w.outbox ++ [⟨m, false⟩] }, .error e)

/-- The document `new Contact({name, email, subject, message})`: the schema
casts the fields to strings and fills the defaults of `createdAt` and
`status` (lines 92-97 and 32-39). -/
def newContact (env : Env) (body : Body) (w : World) : ContactDoc :=
  { name := body.name.toStr
    email := body.email.toStr
    subject := body.subject.toStr
    message := body.message.toStr
    createdAt := w.clock + env.elapsed
    status := "new" }

/-- The block under `if (mongoose.connection.readyState === 1)` (lines 91-100):
a resolved `save` adds the document to the collection. -/
def saveIfConnected (env : Env) (body : Body) (w : World) : World × Except String Unit :=
  if env.readyState = 1 then
    match env.save (newContact env body w) with
    | .error e => (w, .error e)
    | .ok _ =>
      ({ w with store := w.store ++ [newContact env body w]
                console := w.console ++ ["💾 Message saved to database"] }, .ok ())
  else (w, .ok ())

/-- The body of the `try` block (lines 71-165): the world it leaves behind,
and the response it sends or the error it throws. -/
def contactTry (env : Env) (body : Body) (w : World) : World × Except String Response :=
  if !body.name.truthy || !body.email.truthy || !body.subject.truthy
      || !body.message.truthy then
    (w, .ok ⟨400, false, "All fields are required"⟩)
  else if !regexTest emailRegex body.email.toStr then
    (w, .ok ⟨400, false, "Please provide a valid email address"⟩)
  else
    match saveIfConnected env body w with
    | (w1, .error e) => (w1, .error e)
    | (w1, .ok _) =>
      match createTransporter env with
      | .error e => (w1, .error e)
      | .ok transporter =>
        match mailOptionsToYou env body with
        | .error e => (w1, .error e)
        | .ok toYou =>
          match mailOptionsToSender env body with
          | .error e => (w1, .error e)
          | .ok toSender =>
            match sendMail transporter 0 toYou w1 with
            | (w2, .error e) => (w2, .error e)
            | (w2, .ok _) =>
              match sendMail transporter 1 toSender w2 with
              | (w3, .error e) => (w3, .error e)
              | (w3, .ok _) =>
                ({ w3 with console := w3.console ++ ["📧 Emails sent successfully"] },
                  .ok ⟨200, true, "Message sent successfully! Thank you for reaching out."⟩)

/-- The handler of `POST /api/contact` (lines 69-174): the `try` block and
its `catch`, which logs the error and answers with the fixed 500 body. -/
def contactHandler (env : Env) (body : Body) (w : World) : World × Response :=
  match contactTry env body w with
  | (w1, .ok r) => (w1, r)
  | (w1, .error e) =>
    ({ w1 with console := w1.console ++ ["❌ Contact form error: " ++ e] },
      ⟨500, false, "Failed to send message. Please try again later."⟩)

/-! ## The submit handler of the client (`script.js`) -/

/-- The pattern of `isValidEmail` in `script.js` (line 121). -/
def clientEmailRegex : List Piece :=
  [.plus (.negClass [.whitespace, .ch '@']), .one (.lit '@'),
   .plus (.negClass [.whitespace, .ch '@']), .one (.lit '.'),
   .plus (.negClass [.whitespace, .ch '@'])]

/-- The function `isValidEmail` of `script.js` (lines 120-123). -/
def isValidEmail (email : JSVal) : Bool :=
  regexTest clientEmailRegex email.toStr

/-- What the submit handler does after reading the form: it shows an error
modal and returns, or goes on to `fetch('/api/contact')` with the data. -/
inductive ClientAction where
  | showModal (type : String) (message : String) : ClientAction
  | fetchContact (data : Body) : ClientAction
  deriving DecidableEq, Repr

/-- The validation of the submit handler of `script.js` (lines 79-88) and the
step it leads to. -/
def submitHandler (data : Body) : ClientAction :=
  if !data.name.truthy || !data.email.truthy || !data.subject.truthy
      || !data.message.truthy then
    .showModal "error" "Please fill in all fields."
  else if !isValidEmail data.email then
    .showModal "error" "Please enter a valid email address."
  else .fetchContact data

/-! ## The wording of the specification for the email shape -/

/-- Follows the words of the specification, not the source: no white space,
exactly one `@` with a non-empty local part before it, and at least one `.`
in the domain part after the `@`. -/
def specEmailShape (e : String) : Bool :=
  let cs := e.toList
  cs.all (fun c => !isWhiteSpace c)
    && cs.count '@' == 1
    && !(cs.takeWhile fun c => c != '@').isEmpty
    && ((cs.dropWhile fun c => c != '@').drop 1).contains '.'

/-- Follows the words of the specification, not the source: the text with
its newlines rendered as line breaks, every newline character giving the
four characters of `<br>` and every other character itself. -/
def renderLineBreaks : List Char → List Char
  | [] => []
  | c :: cs =>
    if c = '\n' then '<' :: 'b' :: 'r' :: '>' :: renderLineBreaks cs
    else c :: renderLineBreaks cs

/-- A submission the validation lets through: four non-empty strings, the
email matching the pattern. -/
def Body.valid (body : Body) : Prop :=
  ∃ name email subject message : String,
    body = ⟨.str name, .str email, .str subject, .str message⟩
      ∧ name ≠ "" ∧ email ≠ "" ∧ subject ≠ "" ∧ message ≠ ""
      ∧ regexTest emailRegex email = true


/-- The answer of the first validation (lines 75-78). -/
def allFieldsRequired : Response := ⟨400, false, "All fields are required"⟩

/-- The answer of the email validation (lines 84-87). -/
def invalidEmail : Response := ⟨400, false, "Please provide a valid email address"⟩

/-- The answer on success (lines 162-165); `res.json` alone answers 200. -/
def messageSent : Response :=
  ⟨200, true, "Message sent successfully! Thank you for reaching out."⟩

/-- The answer of the `catch` clause (lines 169-172). -/
def failedToSend : Response :=
  ⟨500, false, "Failed to send message. Please try again later."⟩

/-- A field that is absent or the empty string. -/
def JSVal.absentOrEmpty (v : JSVal) : Prop :=
  v = .undefined ∨ v = .str ""

/-- An error `e` is raised after validation: by the store write (when the
store is connected), by the creation of the transporter, or by one of the
two sends. -/
def raisesError (env : Env) (body : Body) (w : World) (e : String) : Prop :=
  (env.readyState = 1 ∧ env.save (newContact env body w) = .error e)
  ∨ createTransporter env = .error e
  ∨ ∃ t, createTransporter env = .ok t ∧
      ((∃ m, mailOptionsToYou env body = .ok m ∧ t.sendMail 0 m = .error e)
        ∨ (∃ m, mailOptionsToSender env body = .ok m ∧ t.sendMail 1 m = .error e))

/-- The world after lines 91-100 when `save` does not throw. -/
def afterSave (env : Env) (body : Body) (w : World) : World :=
  if env.readyState = 1 then
    { w with store := w.store ++ [newContact env body w]
             console := w.console ++ ["💾 Message saved to database"] }
  else w

/-- The line written by `console.error` in the `catch` clause (line 168). -/
def errorLine (e : String) : String := "❌ Contact form error: " ++ e

/-- The store write does not throw: `save` resolves whenever it is called. -/
def saveSucceeds (env : Env) (body : Body) (w : World) : Prop :=
  env.readyState = 1 → env.save (newContact env body w) = .ok ()

/-- Whether the list `needle` occurs in the list `hay` as a contiguous block. -/
def hasInfix (needle : List Char) : List Char → Bool
  | [] => needle.isEmpty
  | c :: hay => needle.isPrefixOf (c :: hay) || hasInfix needle hay

/-- A string occurs in another one as a contiguous substring. -/
def occursIn (needle hay : String) : Prop :=
  hasInfix needle.toList hay.toList = true

instance (needle hay : String) : Decidable (occursIn needle hay) := by
  unfold occursIn
  infer_instance

/-! ## Concrete requests used to instantiate the statements -/

/-- The submission of the specification scenario. -/
def janeDoe : Body :=
  ⟨.str "Jane Doe", .str "jane@example.com", .str "Hello", .str "Hi there"⟩

/-- A submission whose message has two lines. -/
def twoLines : Body :=
  ⟨.str "Jane Doe", .str "jane@example.com", .str "Hello", .str "Hi\nthere"⟩

/-- A transporter on which every send resolves. -/
def reachable : Transporter := ⟨fun _ _ => .ok ()⟩

/-- A transporter whose first send is rejected. -/
def firstSendFails : Transporter :=
  ⟨fun k _ => if k = 0 then .error "ECONNREFUSED" else .ok ()⟩

/-- A transporter whose second send is rejected. -/
def secondSendFails : Transporter :=
  ⟨fun k _ => if k = 1 then .error "ETIMEDOUT" else .ok ()⟩

/-- An environment with a connected store and a mail library that has a
property `createTransporter`, a function returning the given transporter. -/
def envWith (t : Transporter) : Env :=
  { EMAIL_USER := .str "owner@example.com"
    EMAIL_PASS := .str "app-password"
    RECIPIENT_EMAIL := .undefined
    readyState := 1
    save := fun _ => .ok ()
    nodemailer := ⟨some fun _ => .ok t⟩
    elapsed := 5
    localeString := "11/4/2026, 9:20:00 PM" }

/-- As `envWith reachable`, with `RECIPIENT_EMAIL` set to the empty string. -/
def envEmptyRecipient : Env :=
  { envWith reachable with RECIPIENT_EMAIL := .str "" }

/-- As `envWith reachable`, with the store not connected. -/
def envDisconnected : Env :=
  { envWith reachable with readyState := 0 }

/-- As `envWith reachable`, with a store whose write is rejected. -/
def envSaveFails : Env :=
  { envWith reachable with save := fun _ => .error "MongoNetworkError" }

/-- An environment whose mail library is the module as published: it has no
property `createTransporter` (its factory is named `createTransport`, which
the handler never looks up). The store is connected and its write resolves. -/
def envNoFactory : Env :=
  { envWith reachable with nodemailer := ⟨none⟩ }

/-- A world with an empty collection, at time 1000. -/
def emptyWorld : World := ⟨1000, [], [], []⟩

/-! ## Auxiliary facts -/

theorem truthy_str {s : String} (h : s ≠ "") : (JSVal.str s).truthy = true := by
  cases s with
  | mk d =>
    cases d with
    | nil => exact absurd rfl h
    | cons c cs => rfl

theorem truthy_of_absentOrEmpty {v : JSVal} (h : v.absentOrEmpty) : v.truthy = false := by
  rcases h with h | h <;> subst h <;> rfl

/-- The `try` block on a submission that passes both validations. -/
theorem contactTry_valid (env : Env) (w : World) (name email subject message : String)
    (hn : name ≠ "") (he : email ≠ "") (hs : subject ≠ "") (hm : message ≠ "")
    (hre : regexTest emailRegex email = true) :
    contactTry env ⟨.str name, .str email, .str subject, .str message⟩ w =
      match saveIfConnected env ⟨.str name, .str email, .str subject, .str message⟩ w with
      | (w1, .error e) => (w1, .error e)
      | (w1, .ok _) =>
        match createTransporter env with
        | .error e => (w1, .error e)
        | .ok transporter =>
          match sendMail transporter 0
              { from_ := env.EMAIL_USER
                to_ := env.RECIPIENT_EMAIL.or env.EMAIL_USER
                subject := "Portfolio Contact: " ++ subject
                html := notifyHtml (.str name) (.str email) (.str subject)
                  (replaceNewlines message) env.localeString } w1 with
          | (w2, .error e) => (w2, .error e)
          | (w2, .ok _) =>
            match sendMail transporter 1
                { from_ := env.EMAIL_USER
                  to_ := .str email
                  subject := "Thank you for contacting me!"
                  html := replyHtml (.str name) (.str subject) (replaceNewlines message) } w2 with
            | (w3, .error e) => (w3, .error e)
            | (w3, .ok _) =>
              ({ w3 with console := w3.console ++ ["📧 Emails sent successfully"] },
                .ok messageSent) := by
  simp [contactTry, truthy_str hn, truthy_str he, truthy_str hs, truthy_str hm, JSVal.toStr, hre,
    mailOptionsToYou, mailOptionsToSender, JSVal.replaceNewlines, messageSent]

theorem mailOptions_of_valid (env : Env) {body : Body} (hv : body.valid) :
    ∃ m1 m2, mailOptionsToYou env body = .ok m1 ∧ mailOptionsToSender env body = .ok m2 := by
  obtain ⟨name, email, subject, message, rfl, -⟩ := hv
  exact ⟨_, _, rfl, rfl⟩

theorem handler_save_error {env : Env} {body : Body} {w : World} {e : String}
    (hv : body.valid) (hc : env.readyState = 1)
    (hsave : env.save (newContact env body w) = .error e) :
    contactHandler env body w =
      ({ w with console := w.console ++ [errorLine e] }, failedToSend) := by
  obtain ⟨name, email, subject, message, rfl, hn, he, hs, hm, hre⟩ := hv
  simp [contactHandler, contactTry_valid env w _ _ _ _ hn he hs hm hre, saveIfConnected, hc,
    hsave, failedToSend, errorLine]

theorem saveIfConnected_ok {env : Env} {body : Body} {w : World}
    (hsave : saveSucceeds env body w) :
    saveIfConnected env body w = (afterSave env body w, .ok ()) := by
  by_cases hc : env.readyState = 1
  · simp [saveIfConnected, afterSave, hc, hsave hc]
  · simp [saveIfConnected, afterSave, hc]

theorem handler_transporter_error {env : Env} {body : Body} {w : World} {e : String}
    (hv : body.valid) (hsave : saveSucceeds env body w)
    (ht : createTransporter env = .error e) :
    contactHandler env body w =
      ({ afterSave env body w with console := (afterSave env body w).console ++ [errorLine e] },
        failedToSend) := by
  obtain ⟨name, email, subject, message, rfl, hn, he, hs, hm, hre⟩ := hv
  simp [contactHandler, contactTry_valid env w _ _ _ _ hn he hs hm hre, saveIfConnected_ok hsave,
    ht, failedToSend, errorLine]

theorem handler_first_send_error {env : Env} {body : Body} {w : World} {e : String}
    {t : Transporter} {m1 : MailOptions}
    (hv : body.valid) (hsave : saveSucceeds env body w)
    (ht : createTransporter env = .ok t) (hm1 : mailOptionsToYou env body = .ok m1)
    (h1 : t.sendMail 0 m1 = .error e) :
    contactHandler env body w =
      ({ afterSave env body w with
          outbox := (afterSave env body w).outbox ++ [⟨m1, false⟩]
          console := (afterSave env body w).console ++ [errorLine e] }, failedToSend) := by
  obtain ⟨name, email, subject, message, rfl, hn, he, hs, hm, hre⟩ := hv
  simp only [mailOptionsToYou, JSVal.replaceNewlines, JSVal.toStr, Except.ok.injEq] at hm1
  subst hm1
  simp [contactHandler, contactTry_valid env w _ _ _ _ hn he hs hm hre, saveIfConnected_ok hsave,
    ht, sendMail, h1, failedToSend, errorLine]

theorem handler_second_send_error {env : Env} {body : Body} {w : World} {e : String}
    {t : Transporter} {m1 m2 : MailOptions}
    (hv : body.valid) (hsave : saveSucceeds env body w)
    (ht : createTransporter env = .ok t) (hm1 : mailOptionsToYou env body = .ok m1)
    (hm2 : mailOptionsToSender env body = .ok m2)
    (h1 : t.sendMail 0 m1 = .ok ()) (h2 : t.sendMail 1 m2 = .error e) :
    contactHandler env body w =
      ({ afterSave env body w with
          outbox := (afterSave env body w).outbox ++ [⟨m1, true⟩, ⟨m2, false⟩]
          console := (afterSave env body w).console ++ [errorLine e] }, failedToSend) := by
  obtain ⟨name, email, subject, message, rfl, hn, he, hs, hm, hre⟩ := hv
  simp only [mailOptionsToYou, JSVal.replaceNewlines, JSVal.toStr, Except.ok.injEq] at hm1
  simp only [mailOptionsToSender, JSVal.replaceNewlines, JSVal.toStr, Except.ok.injEq] at hm2
  subst hm1 hm2
  simp [contactHandler, contactTry_valid env w _ _ _ _ hn he hs hm hre, saveIfConnected_ok hsave,
    ht, sendMail, h1, h2, failedToSend, errorLine]

theorem handler_all_ok {env : Env} {body : Body} {w : World}
    {t : Transporter} {m1 m2 : MailOptions}
    (hv : body.valid) (hsave : saveSucceeds env body w)
    (ht : createTransporter env = .ok t) (hm1 : mailOptionsToYou env body = .ok m1)
    (hm2 : mailOptionsToSender env body = .ok m2)
    (h1 : t.sendMail 0 m1 = .ok ()) (h2 : t.sendMail 1 m2 = .ok ()) :
    contactHandler env body w =
      ({ afterSave env body w with
          outbox := (afterSave env body w).outbox ++ [⟨m1, true⟩, ⟨m2, true⟩]
          console := (afterSave env body w).console ++ ["📧 Emails sent successfully"] },
        messageSent) := by
  obtain ⟨name, email, subject, message, rfl, hn, he, hs, hm, hre⟩ := hv
  simp only [mailOptionsToYou, JSVal.replaceNewlines, JSVal.toStr, Except.ok.injEq] at hm1
  simp only [mailOptionsToSender, JSVal.replaceNewlines, JSVal.toStr, Except.ok.injEq] at hm2
  subst hm1 hm2
  simp [contactHandler, contactTry_valid env w _ _ _ _ hn he hs hm hre, saveIfConnected_ok hsave,
    ht, sendMail, h1, h2, messageSent]

theorem str_of_truthy {v : JSVal} (h : v.truthy = true) : ∃ s, v = .str s ∧ s ≠ "" := by
  cases v with
  | undefined => simp [JSVal.truthy] at h
  | null => simp [JSVal.truthy] at h
  | str s =>
    refine ⟨s, rfl, ?_⟩
    rintro rfl
    simp [JSVal.truthy] at h

/-- Every submission passes both validations or is answered by one of the two
400 responses with the world untouched. -/
theorem valid_or_rejected (env : Env) (body : Body) (w : World) :
    body.valid ∨ contactHandler env body w = (w, allFieldsRequired)
      ∨ contactHandler env body w = (w, invalidEmail) := by
  by_cases hn : body.name.truthy = true
  · by_cases he : body.email.truthy = true
    · by_cases hs : body.subject.truthy = true
      · by_cases hm : body.message.truthy = true
        · by_cases hre : regexTest emailRegex body.email.toStr = true
          · left
            obtain ⟨n, hn1, hn2⟩ := str_of_truthy hn
            obtain ⟨e, he1, he2⟩ := str_of_truthy he
            obtain ⟨s, hs1, hs2⟩ := str_of_truthy hs
            obtain ⟨m, hm1, hm2⟩ := str_of_truthy hm
            refine ⟨n, e, s, m, ?_, hn2, he2, hs2, hm2, ?_⟩
            · cases body
              simp_all
            · simpa [he1, JSVal.toStr] using hre
          · right; right
            simp [contactHandler, contactTry, hn, he, hs, hm, hre, invalidEmail]
        · right; left
          simp [contactHandler, contactTry, hm, allFieldsRequired]
      · right; left
        simp [contactHandler, contactTry, hs, allFieldsRequired]
    · right; left
      simp [contactHandler, contactTry, he, allFieldsRequired]
  · right; left
    simp [contactHandler, contactTry, hn, allFieldsRequired]

theorem afterSave_outbox (env : Env) (body : Body) (w : World) :
    (afterSave env body w).outbox = w.outbox := by
  unfold afterSave
  split <;> rfl

theorem afterSave_store_connected {env : Env} (body : Body) (w : World)
    (hc : env.readyState = 1) :
    (afterSave env body w).store = w.store ++ [newContact env body w] := by
  simp [afterSave, hc]

theorem afterSave_store_disconnected {env : Env} (body : Body) (w : World)
    (hc : env.readyState ≠ 1) : (afterSave env body w).store = w.store := by
  simp [afterSave, hc]

/-- When the store write is called and does not resolve, it throws. -/
theorem save_error_of_not_saveSucceeds {env : Env} {body : Body} {w : World}
    (h : ¬ saveSucceeds env body w) :
    env.readyState = 1 ∧ ∃ e, env.save (newContact env body w) = .error e := by
  unfold saveSucceeds at h
  push_neg at h
  refine ⟨h.1, ?_⟩
  cases hs : env.save (newContact env body w) with
  | error e => exact ⟨e, rfl⟩
  | ok u => exact absurd hs h.2

/-- The five ways a valid submission can run. -/
theorem handler_outcome {env : Env} {body : Body} {w : World} {m1 m2 : MailOptions}
    (hv : body.valid) (hm1 : mailOptionsToYou env body = .ok m1)
    (hm2 : mailOptionsToSender env body = .ok m2) :
    (env.readyState = 1 ∧ ∃ e, env.save (newContact env body w) = .error e ∧
        contactHandler env body w =
          ({ w with console := w.console ++ [errorLine e] }, failedToSend))
    ∨ (saveSucceeds env body w ∧ ∃ e, createTransporter env = .error e ∧
        contactHandler env body w =
          ({ afterSave env body w with
              console := (afterSave env body w).console ++ [errorLine e] }, failedToSend))
    ∨ (saveSucceeds env body w ∧ ∃ t e, createTransporter env = .ok t ∧
        t.sendMail 0 m1 = .error e ∧
        contactHandler env body w =
          ({ afterSave env body w with
              outbox := (afterSave env body w).outbox ++ [⟨m1, false⟩]
              console := (afterSave env body w).console ++ [errorLine e] }, failedToSend))
    ∨ (saveSucceeds env body w ∧ ∃ t e, createTransporter env = .ok t ∧
        t.sendMail 0 m1 = .ok () ∧ t.sendMail 1 m2 = .error e ∧
        contactHandler env body w =
          ({ afterSave env body w with
              outbox := (afterSave env body w).outbox ++ [⟨m1, true⟩, ⟨m2, false⟩]
              console := (afterSave env body w).console ++ [errorLine e] }, failedToSend))
    ∨ (saveSucceeds env body w ∧ ∃ t, createTransporter env = .ok t ∧
        t.sendMail 0 m1 = .ok () ∧ t.sendMail 1 m2 = .ok () ∧
        contactHandler env body w =
          ({ afterSave env body w with
              outbox := (afterSave env body w).outbox ++ [⟨m1, true⟩, ⟨m2, true⟩]
              console := (afterSave env body w).console ++ ["📧 Emails sent successfully"] },
            messageSent)) := by
  by_cases hsave : saveSucceeds env body w
  · right
    cases ht : createTransporter env with
    | error e => exact Or.inl ⟨hsave, e, rfl, handler_transporter_error hv hsave ht⟩
    | ok t =>
      right
      cases h1 : t.sendMail 0 m1 with
      | error e => exact Or.inl ⟨hsave, t, e, rfl, h1, handler_first_send_error hv hsave ht hm1 h1⟩
      | ok u =>
        right
        cases h2 : t.sendMail 1 m2 with
        | error e =>
          exact Or.inl ⟨hsave, t, e, rfl, h1, h2,
            handler_second_send_error hv hsave ht hm1 hm2 h1 h2⟩
        | ok u2 =>
          exact Or.inr ⟨hsave, t, rfl, h1, h2, handler_all_ok hv hsave ht hm1 hm2 h1 h2⟩
  · obtain ⟨hc, e, he⟩ := save_error_of_not_saveSucceeds hsave
    exact Or.inl ⟨hc, e, he, handler_save_error hv hc he⟩

/-! ## The claims -/

/-- C1: a payload in which one of name, email, subject, message is absent or
the empty string is answered with status 400 and the message "All fields are
required", and the world is left as it was: no record is written and no mail
is sent, whatever the store connection and the other fields are. -/
theorem contact_missing_field (env : Env) (body : Body) (w : World)
    (h : body.name.absentOrEmpty ∨ body.email.absentOrEmpty ∨ body.subject.absentOrEmpty
      ∨ body.message.absentOrEmpty) :
    contactHandler env body w = (w, ⟨400, false, "All fields are required"⟩) := by
  rcases h with h | h | h | h <;>
    simp [contactHandler, contactTry, truthy_of_absentOrEmpty h]

/-- C1 at the scenario of the specification: the name is the empty string. -/
theorem contact_missing_field_witness :
    (JSVal.str "").absentOrEmpty ∧
      contactHandler (envWith reachable)
        ⟨.str "", .str "jane@example.com", .str "Hello", .str "Hi"⟩ emptyWorld
        = (emptyWorld, ⟨400, false, "All fields are required"⟩) :=
  ⟨Or.inr rfl, contact_missing_field _ _ _ (Or.inl (Or.inr rfl))⟩

/-- C2: a payload of four non-empty strings whose email does not match the
pattern is answered with status 400 and the message "Please provide a valid
email address", and the world is left as it was: no record is written and no
mail is sent. -/
theorem contact_invalid_email (env : Env) (w : World) (name email subject message : String)
    (hn : name ≠ "") (he : email ≠ "") (hs : subject ≠ "") (hm : message ≠ "")
    (hre : regexTest emailRegex email = false) :
    contactHandler env ⟨.str name, .str email, .str subject, .str message⟩ w
      = (w, ⟨400, false, "Please provide a valid email address"⟩) := by
  simp [contactHandler, contactTry, truthy_str hn, truthy_str he, truthy_str hs, truthy_str hm,
    JSVal.toStr, hre]

/-- C2 at the scenario of the specification: the email is "not-an-email". -/
theorem contact_invalid_email_witness :
    regexTest emailRegex "not-an-email" = false ∧
      contactHandler (envWith reachable)
        ⟨.str "Jane Doe", .str "not-an-email", .str "Hello", .str "Hi there"⟩ emptyWorld
        = (emptyWorld, ⟨400, false, "Please provide a valid email address"⟩) :=
  ⟨by decide, contact_invalid_email _ _ _ _ _ _ (by decide) (by decide) (by decide) (by decide)
    (by decide)⟩

/-- C5: for a valid submission, every error raised after validation (by the
store write, by the creation of the transporter or by one of the two sends)
is answered with status 500 and the message "Failed to send message. Please
try again later."; the answer is the same whatever the error, the
environment and the world in which an error is raised, so it does not depend
on the text of the error. -/
theorem contact_error_generic (env : Env) (body : Body) (w : World) (e : String)
    (hv : body.valid) (h : raisesError env body w e) :
    (contactHandler env body w).2 = ⟨500, false, "Failed to send message. Please try again later."⟩
      ∧ ∀ (env2 : Env) (w2 : World) (e2 : String), raisesError env2 body w2 e2 →
          (contactHandler env2 body w2).2 = (contactHandler env body w).2 := by
  have key : ∀ (env : Env) (w : World) (e : String), raisesError env body w e →
      (contactHandler env body w).2 = failedToSend := by
    intro env w e h
    obtain ⟨m1, m2, hm1, hm2⟩ := mailOptions_of_valid env hv
    rcases handler_outcome (w := w) hv hm1 hm2 with
      ⟨-, e1, -, hh⟩ | ⟨-, e1, -, hh⟩ | ⟨-, t, e1, -, -, hh⟩ | ⟨-, t, e1, -, -, -, hh⟩
        | ⟨hsave, t, ht, h1, h2, hh⟩
    · rw [hh]
    · rw [hh]
    · rw [hh]
    · rw [hh]
    · exfalso
      rcases h with ⟨hc, hs⟩ | hct | ⟨t2, ht2, ⟨m, hm, hs⟩ | ⟨m, hm, hs⟩⟩
      · rw [hsave hc] at hs
        cases hs
      · rw [ht] at hct
        cases hct
      · rw [ht] at ht2
        cases ht2
        rw [hm1] at hm
        cases hm
        rw [h1] at hs
        cases hs
      · rw [ht] at ht2
        cases ht2
        rw [hm2] at hm
        cases hm
        rw [h2] at hs
        cases hs
  refine ⟨key env w e h, ?_⟩
  intro env2 w2 e2 h2
  rw [key env2 w2 e2 h2, key env w e h]

/-- C5 at the scenario of the specification: the first send throws. -/
theorem contact_error_generic_witness :
    raisesError (envWith firstSendFails) janeDoe emptyWorld "ECONNREFUSED" ∧
      (contactHandler (envWith firstSendFails) janeDoe emptyWorld).2
        = ⟨500, false, "Failed to send message. Please try again later."⟩ :=
  have hv : janeDoe.valid :=
    ⟨"Jane Doe", "jane@example.com", "Hello", "Hi there", rfl, by decide, by decide, by decide,
      by decide, by decide⟩
  have hr : raisesError (envWith firstSendFails) janeDoe emptyWorld "ECONNREFUSED" :=
    Or.inr (Or.inr ⟨firstSendFails, rfl, Or.inl ⟨_, rfl, rfl⟩⟩)
  ⟨hr, (contact_error_generic _ _ _ _ hv hr).1⟩

/-- C7: when the store is connected (readyState = 1), a submission answered
with success adds exactly one record: the store afterwards is the store
before followed by one document whose name, email, subject and message are
the submitted strings, whose status is "new" and whose createdAt is not
earlier than the start of the request; and when the store is not connected,
the store is unchanged, whatever the answer. -/
theorem contact_store_record (env : Env) (body : Body) (w : World) :
    (env.readyState = 1 → (contactHandler env body w).2.success = true →
      ∃ doc : ContactDoc, (contactHandler env body w).1.store = w.store ++ [doc]
        ∧ body = ⟨.str doc.name, .str doc.email, .str doc.subject, .str doc.message⟩
        ∧ doc.status = "new" ∧ w.clock ≤ doc.createdAt)
    ∧ (env.readyState ≠ 1 → (contactHandler env body w).1.store = w.store) := by
  rcases valid_or_rejected env body w with hv | hr | hr
  · obtain ⟨m1, m2, hm1, hm2⟩ := mailOptions_of_valid env hv
    rcases handler_outcome (w := w) hv hm1 hm2 with
      ⟨hc, e1, -, hh⟩ | ⟨-, e1, -, hh⟩ | ⟨-, t, e1, -, -, hh⟩ | ⟨-, t, e1, -, -, -, hh⟩
        | ⟨hsave, t, ht, h1, h2, hh⟩
    · rw [hh]
      exact ⟨fun _ h => by simp [failedToSend] at h, fun hn => absurd hc hn⟩
    · rw [hh]
      exact ⟨fun _ h => by simp [failedToSend] at h,
        fun hn => afterSave_store_disconnected body w hn⟩
    · rw [hh]
      exact ⟨fun _ h => by simp [failedToSend] at h,
        fun hn => afterSave_store_disconnected body w hn⟩
    · rw [hh]
      exact ⟨fun _ h => by simp [failedToSend] at h,
        fun hn => afterSave_store_disconnected body w hn⟩
    · rw [hh]
      refine ⟨fun hc _ => ⟨newContact env body w, afterSave_store_connected body w hc, ?_, rfl,
        Nat.le_add_right _ _⟩, fun hn => afterSave_store_disconnected body w hn⟩
      obtain ⟨name, email, subject, message, rfl, -⟩ := hv
      rfl
  · rw [hr]
    exact ⟨fun _ h => by simp [allFieldsRequired] at h, fun _ => rfl⟩
  · rw [hr]
    exact ⟨fun _ h => by simp [invalidEmail] at h, fun _ => rfl⟩

/-- C7 at the submission of the specification scenario, with the store
connected and with the store not connected. -/
theorem contact_store_record_witness :
    (∃ doc : ContactDoc,
        (contactHandler (envWith reachable) janeDoe emptyWorld).1.store = emptyWorld.store ++ [doc]
        ∧ janeDoe = ⟨.str doc.name, .str doc.email, .str doc.subject, .str doc.message⟩
        ∧ doc.status = "new" ∧ emptyWorld.clock ≤ doc.createdAt)
      ∧ (contactHandler envDisconnected janeDoe emptyWorld).1.store = emptyWorld.store :=
  ⟨(contact_store_record (envWith reachable) janeDoe emptyWorld).1 rfl rfl,
    (contact_store_record envDisconnected janeDoe emptyWorld).2 (by decide)⟩

/-- C8: the two sends of a request are sequential and both required. For a
valid submission the attempts added to the outbox are none, or the failed
owner notification alone, or the delivered owner notification followed by
the auto-reply; the answer is the success only when both were delivered and
the 500 failure otherwise. When the sends are reached (the store write does
not throw and the transporter is created): a failed owner notification
leaves exactly that one failed attempt and the 500 failure, and a delivered
owner notification followed by a failed auto-reply gives the 500 failure. -/
theorem contact_sends_sequential (env : Env) (body : Body) (w : World) (m1 m2 : MailOptions)
    (hv : body.valid) (hm1 : mailOptionsToYou env body = .ok m1)
    (hm2 : mailOptionsToSender env body = .ok m2) :
    (((contactHandler env body w).1.outbox = w.outbox
          ∧ (contactHandler env body w).2 = failedToSend)
      ∨ ((contactHandler env body w).1.outbox = w.outbox ++ [⟨m1, false⟩]
          ∧ (contactHandler env body w).2 = failedToSend)
      ∨ ((contactHandler env body w).1.outbox = w.outbox ++ [⟨m1, true⟩, ⟨m2, false⟩]
          ∧ (contactHandler env body w).2 = failedToSend)
      ∨ ((contactHandler env body w).1.outbox = w.outbox ++ [⟨m1, true⟩, ⟨m2, true⟩]
          ∧ (contactHandler env body w).2 = messageSent))
    ∧ ∀ t, saveSucceeds env body w → createTransporter env = .ok t →
        (∀ e, t.sendMail 0 m1 = .error e →
          (contactHandler env body w).1.outbox = w.outbox ++ [⟨m1, false⟩]
            ∧ (contactHandler env body w).2 = failedToSend)
        ∧ (∀ e, t.sendMail 0 m1 = .ok () → t.sendMail 1 m2 = .error e →
          (contactHandler env body w).1.outbox = w.outbox ++ [⟨m1, true⟩, ⟨m2, false⟩]
            ∧ (contactHandler env body w).2 = failedToSend) := by
  constructor
  · rcases handler_outcome (w := w) hv hm1 hm2 with
      ⟨hc, e1, -, hh⟩ | ⟨-, e1, -, hh⟩ | ⟨-, t, e1, -, -, hh⟩ | ⟨-, t, e1, -, -, -, hh⟩
        | ⟨hsave, t, ht, h1, h2, hh⟩
    · exact Or.inl (by rw [hh]; exact ⟨rfl, rfl⟩)
    · exact Or.inl (by rw [hh]; exact ⟨afterSave_outbox env body w, rfl⟩)
    · exact Or.inr (Or.inl (by rw [hh]; simp [afterSave_outbox]))
    · exact Or.inr (Or.inr (Or.inl (by rw [hh]; simp [afterSave_outbox])))
    · exact Or.inr (Or.inr (Or.inr (by rw [hh]; simp [afterSave_outbox])))
  · intro t hsave ht
    constructor
    · intro e h1
      rw [handler_first_send_error hv hsave ht hm1 h1]
      simp [afterSave_outbox]
    · intro e h1 h2
      rw [handler_second_send_error hv hsave ht hm1 hm2 h1 h2]
      simp [afterSave_outbox]

/-- C8 with a transporter whose first send is rejected. -/
theorem contact_sends_sequential_witness :
    janeDoe.valid ∧
      ∃ m1, (contactHandler (envWith firstSendFails) janeDoe emptyWorld).1.outbox
          = emptyWorld.outbox ++ [⟨m1, false⟩]
        ∧ (contactHandler (envWith firstSendFails) janeDoe emptyWorld).2 = failedToSend :=
  have hv : janeDoe.valid :=
    ⟨"Jane Doe", "jane@example.com", "Hello", "Hi there", rfl, by decide, by decide, by decide,
      by decide, by decide⟩
  ⟨hv, _, ((contact_sends_sequential (envWith firstSendFails) janeDoe emptyWorld _ _ hv rfl
    rfl).2 firstSendFails (fun _ => rfl) rfl).1 "ECONNREFUSED" rfl⟩

/-- C10: the handler runs validate, persist, send, respond without
compensation. For a valid submission handled while the store is connected:
if the store write resolves and a later step throws (the creation of the
transporter, or the first send, or the second send after a delivered first
one), the store afterwards is the store before followed by the new document
and the answer is the 500 failure; and if the store write throws, the answer
is the 500 failure, no send is attempted and the store is unchanged. -/
theorem contact_no_compensation (env : Env) (body : Body) (w : World) (m1 m2 : MailOptions)
    (hv : body.valid) (hc : env.readyState = 1)
    (hm1 : mailOptionsToYou env body = .ok m1) (hm2 : mailOptionsToSender env body = .ok m2) :
    (env.save (newContact env body w) = .ok () →
      ((∃ e, createTransporter env = .error e)
        ∨ ∃ t, createTransporter env = .ok t ∧
            ((∃ e, t.sendMail 0 m1 = .error e)
              ∨ (t.sendMail 0 m1 = .ok () ∧ ∃ e, t.sendMail 1 m2 = .error e))) →
      (contactHandler env body w).1.store = w.store ++ [newContact env body w]
        ∧ (contactHandler env body w).2 = failedToSend)
    ∧ (∀ e, env.save (newContact env body w) = .error e →
        (contactHandler env body w).2 = failedToSend
          ∧ (contactHandler env body w).1.outbox = w.outbox
          ∧ (contactHandler env body w).1.store = w.store) := by
  constructor
  · intro hs hlater
    have hsave : saveSucceeds env body w := fun _ => hs
    rcases hlater with ⟨e, ht⟩ | ⟨t, ht, ⟨e, h1⟩ | ⟨h1, e, h2⟩⟩
    · rw [handler_transporter_error hv hsave ht]
      exact ⟨afterSave_store_connected body w hc, rfl⟩
    · rw [handler_first_send_error hv hsave ht hm1 h1]
      exact ⟨afterSave_store_connected body w hc, rfl⟩
    · rw [handler_second_send_error hv hsave ht hm1 hm2 h1 h2]
      exact ⟨afterSave_store_connected body w hc, rfl⟩
  · intro e hs
    rw [handler_save_error hv hc hs]
    exact ⟨rfl, rfl, rfl⟩

/-- C10 with a transporter whose second send is rejected: the record stays. -/
theorem contact_no_compensation_witness :
    janeDoe.valid ∧
      (contactHandler (envWith secondSendFails) janeDoe emptyWorld).1.store
          = emptyWorld.store ++ [newContact (envWith secondSendFails) janeDoe emptyWorld]
        ∧ (contactHandler (envWith secondSendFails) janeDoe emptyWorld).2 = failedToSend :=
  have hv : janeDoe.valid :=
    ⟨"Jane Doe", "jane@example.com", "Hello", "Hi there", rfl, by decide, by decide, by decide,
      by decide, by decide⟩
  ⟨hv, (contact_no_compensation (envWith secondSendFails) janeDoe emptyWorld _ _ hv rfl rfl
    rfl).1 rfl (Or.inr ⟨secondSendFails, rfl, Or.inr ⟨rfl, "ETIMEDOUT", rfl⟩⟩)⟩

theorem clientEmailRegex_eq : clientEmailRegex = emailRegex := rfl

/-- The client and the server take the same branch of their validations. -/
theorem validation_branches (env : Env) (body : Body) (w : World) :
    (body.valid ∧ submitHandler body = .fetchContact body)
    ∨ ((contactHandler env body w).2 = allFieldsRequired
        ∧ submitHandler body = .showModal "error" "Please fill in all fields.")
    ∨ ((contactHandler env body w).2 = invalidEmail
        ∧ submitHandler body = .showModal "error" "Please enter a valid email address.") := by
  by_cases hn : body.name.truthy = true
  · by_cases he : body.email.truthy = true
    · by_cases hs : body.subject.truthy = true
      · by_cases hm : body.message.truthy = true
        · by_cases hre : regexTest emailRegex body.email.toStr = true
          · left
            refine ⟨?_, by simp [submitHandler, isValidEmail, clientEmailRegex_eq, hn, he, hs,
              hm, hre]⟩
            obtain ⟨n, hn1, hn2⟩ := str_of_truthy hn
            obtain ⟨e, he1, he2⟩ := str_of_truthy he
            obtain ⟨s, hs1, hs2⟩ := str_of_truthy hs
            obtain ⟨m, hm1, hm2⟩ := str_of_truthy hm
            refine ⟨n, e, s, m, ?_, hn2, he2, hs2, hm2, ?_⟩
            · cases body
              simp_all
            · simpa [he1, JSVal.toStr] using hre
          · right; right
            simp [contactHandler, contactTry, submitHandler, isValidEmail, clientEmailRegex_eq,
              hn, he, hs, hm, hre, invalidEmail]
        · right; left
          simp [contactHandler, contactTry, submitHandler, hm, allFieldsRequired]
      · right; left
        simp [contactHandler, contactTry, submitHandler, hs, allFieldsRequired]
    · right; left
      simp [contactHandler, contactTry, submitHandler, he, allFieldsRequired]
  · right; left
    simp [contactHandler, contactTry, submitHandler, hn, allFieldsRequired]

/-- A valid submission is answered by the 500 failure or by the success. -/
theorem response_of_valid (env : Env) (body : Body) (w : World) (hv : body.valid) :
    (contactHandler env body w).2 = failedToSend
      ∨ (contactHandler env body w).2 = messageSent := by
  obtain ⟨m1, m2, hm1, hm2⟩ := mailOptions_of_valid env hv
  rcases handler_outcome (w := w) hv hm1 hm2 with
    ⟨hc, e1, -, hh⟩ | ⟨-, e1, -, hh⟩ | ⟨-, t, e1, -, -, hh⟩ | ⟨-, t, e1, -, -, -, hh⟩
      | ⟨hsave, t, ht, h1, h2, hh⟩
  all_goals rw [hh]
  all_goals simp

/-- C9: the validation of the client submit handler agrees with the
validation of the server handler on every four-tuple of form values: the
client goes on to the network request exactly when the server does not
answer 400, it reports missing fields exactly when the server answers "All
fields are required", it reports an invalid email exactly when the server
answers "Please provide a valid email address", and `isValidEmail` accepts
exactly the strings accepted by the server pattern. -/
theorem client_validation_agrees (env : Env) (data : Body) (w : World) :
    (submitHandler data = .fetchContact data ↔ (contactHandler env data w).2.status ≠ 400)
    ∧ (submitHandler data = .showModal "error" "Please fill in all fields."
        ↔ (contactHandler env data w).2 = ⟨400, false, "All fields are required"⟩)
    ∧ (submitHandler data = .showModal "error" "Please enter a valid email address."
        ↔ (contactHandler env data w).2 = ⟨400, false, "Please provide a valid email address"⟩)
    ∧ ∀ email : JSVal, isValidEmail email = regexTest emailRegex email.toStr := by
  refine ⟨?_, ?_, ?_, fun _ => rfl⟩
  all_goals
    rcases validation_branches env data w with ⟨hv, hcl⟩ | ⟨hsv, hcl⟩ | ⟨hsv, hcl⟩
    · rw [hcl]
      rcases response_of_valid env data w hv with h | h <;> rw [h] <;>
        simp [failedToSend, messageSent]
    · rw [hcl, hsv]
      simp [allFieldsRequired]
    · rw [hcl, hsv]
      simp [invalidEmail]

/-! ### The email pattern -/

theorem matchPieces_nil (s : List Char) : matchPieces [] s = true ↔ s = [] := by
  cases s <;> simp [matchPieces]

theorem matchPieces_one (a : Atom) (rest : List Piece) (s : List Char) :
    matchPieces (.one a :: rest) s = true ↔
      ∃ c q, s = c :: q ∧ a.test c = true ∧ matchPieces rest q = true := by
  cases s with
  | nil => simp [matchPieces]
  | cons c q =>
    simp only [matchPieces, Bool.and_eq_true, List.cons.injEq]
    constructor
    · rintro ⟨h1, h2⟩
      exact ⟨c, q, ⟨rfl, rfl⟩, h1, h2⟩
    · rintro ⟨c2, q2, ⟨rfl, rfl⟩, h1, h2⟩
      exact ⟨h1, h2⟩

theorem matchPieces_plus (a : Atom) (rest : List Piece) (s : List Char) :
    matchPieces (.plus a :: rest) s = true ↔
      ∃ p q, p ≠ [] ∧ s = p ++ q ∧ (∀ c ∈ p, a.test c = true) ∧ matchPieces rest q = true := by
  induction s with
  | nil =>
    simp only [matchPieces, Bool.false_eq_true, false_iff]
    rintro ⟨p, q, hne, hs, -⟩
    cases p with
    | nil => exact hne rfl
    | cons x p => simp at hs
  | cons c s ih =>
    simp only [matchPieces, Bool.and_eq_true, Bool.or_eq_true]
    constructor
    · rintro ⟨hc, h | h⟩
      · obtain ⟨p, q, -, rfl, hp, hq⟩ := ih.mp h
        refine ⟨c :: p, q, by simp, by simp, ?_, hq⟩
        intro x hx
        rcases List.mem_cons.mp hx with rfl | hx
        · exact hc
        · exact hp x hx
      · exact ⟨[c], s, by simp, by simp, by simpa using hc, h⟩
    · rintro ⟨p, q, hne, hs, hp, hq⟩
      cases p with
      | nil => exact absurd rfl hne
      | cons x p =>
        simp only [List.cons_append, List.cons.injEq] at hs
        obtain ⟨rfl, rfl⟩ := hs
        refine ⟨hp c (by simp), ?_⟩
        cases p with
        | nil => exact Or.inr (by simpa using hq)
        | cons y p =>
          exact Or.inl (ih.mpr ⟨y :: p, q, by simp, rfl,
            fun z hz => hp z (List.mem_cons_of_mem _ hz), hq⟩)

theorem notSpaceNorAt_test (c : Char) :
    notSpaceNorAt.test c = true ↔ isWhiteSpace c = false ∧ c ≠ '@' := by
  simp [notSpaceNorAt, Atom.test, ClassItem.test]

/-- The strings matched by the server pattern: a non-empty local part, `@`,
a non-empty label, `.`, a non-empty rest, none of the three parts holding a
white space or an `@`. -/
theorem emailRegex_matches (s : List Char) :
    matchPieces emailRegex s = true ↔
      ∃ l d1 d2 : List Char, l ≠ [] ∧ d1 ≠ [] ∧ d2 ≠ []
        ∧ (∀ c ∈ l, isWhiteSpace c = false ∧ c ≠ '@')
        ∧ (∀ c ∈ d1, isWhiteSpace c = false ∧ c ≠ '@')
        ∧ (∀ c ∈ d2, isWhiteSpace c = false ∧ c ≠ '@')
        ∧ s = l ++ '@' :: (d1 ++ '.' :: d2) := by
  unfold emailRegex
  constructor
  · intro h
    obtain ⟨l, q1, hl, rfl, hlok, h⟩ := (matchPieces_plus _ _ _).mp h
    obtain ⟨c1, q2, rfl, hc1, h⟩ := (matchPieces_one _ _ _).mp h
    obtain ⟨d1, q3, hd1, rfl, hd1ok, h⟩ := (matchPieces_plus _ _ _).mp h
    obtain ⟨c2, q4, rfl, hc2, h⟩ := (matchPieces_one _ _ _).mp h
    obtain ⟨d2, q5, hd2, rfl, hd2ok, h⟩ := (matchPieces_plus _ _ _).mp h
    have hq5 := (matchPieces_nil _).mp h
    subst hq5
    simp only [Atom.test, beq_iff_eq] at hc1 hc2
    subst hc1 hc2
    exact ⟨l, d1, d2, hl, hd1, hd2, fun c hc => (notSpaceNorAt_test c).mp (hlok c hc),
      fun c hc => (notSpaceNorAt_test c).mp (hd1ok c hc),
      fun c hc => (notSpaceNorAt_test c).mp (hd2ok c hc), by simp⟩
  · rintro ⟨l, d1, d2, hl, hd1, hd2, hlok, hd1ok, hd2ok, rfl⟩
    refine (matchPieces_plus _ _ _).mpr ⟨l, _, hl, rfl,
      fun c hc => (notSpaceNorAt_test c).mpr (hlok c hc), ?_⟩
    refine (matchPieces_one _ _ _).mpr ⟨_, _, rfl, by simp [Atom.test], ?_⟩
    refine (matchPieces_plus _ _ _).mpr ⟨d1, _, hd1, rfl,
      fun c hc => (notSpaceNorAt_test c).mpr (hd1ok c hc), ?_⟩
    refine (matchPieces_one _ _ _).mpr ⟨_, _, rfl, by simp [Atom.test], ?_⟩
    exact (matchPieces_plus _ _ _).mpr ⟨d2, [], hd2, by simp,
      fun c hc => (notSpaceNorAt_test c).mpr (hd2ok c hc), by simp [matchPieces]⟩

/-- C6, as stated, fails: `a@.b` has no white space, exactly one `@` with the
non-empty local part `a` before it, and a `.` in the domain part `.b`, and
the server pattern rejects it. -/
theorem email_shape_counterexample :
    ¬ (regexTest emailRegex "a@.b" = true ↔ specEmailShape "a@.b" = true) := by
  decide

/-- C6, amended: the server pattern accepts a string exactly when it has no
white space, has exactly one `@`, and splits as a non-empty local part, the
`@`, and a domain part in which some `.` has at least one character before
it and at least one character after it. -/
theorem email_shape (e : String) :
    regexTest emailRegex e = true ↔
      (∀ c ∈ e.toList, isWhiteSpace c = false) ∧ e.toList.count '@' = 1
        ∧ ∃ l d1 d2 : List Char, l ≠ [] ∧ d1 ≠ [] ∧ d2 ≠ []
            ∧ e.toList = l ++ '@' :: (d1 ++ '.' :: d2) := by
  unfold regexTest
  rw [emailRegex_matches]
  constructor
  · rintro ⟨l, d1, d2, hl, hd1, hd2, hlok, hd1ok, hd2ok, hs⟩
    have cl : l.count '@' = 0 := List.count_eq_zero.mpr fun h => (hlok _ h).2 rfl
    have c1 : d1.count '@' = 0 := List.count_eq_zero.mpr fun h => (hd1ok _ h).2 rfl
    have c2 : d2.count '@' = 0 := List.count_eq_zero.mpr fun h => (hd2ok _ h).2 rfl
    refine ⟨?_, ?_, l, d1, d2, hl, hd1, hd2, hs⟩
    · intro c hc
      rw [hs] at hc
      simp only [List.mem_append, List.mem_cons] at hc
      rcases hc with h | rfl | h | rfl | h
      · exact (hlok c h).1
      · decide
      · exact (hd1ok c h).1
      · decide
      · exact (hd2ok c h).1
    · rw [hs]
      simp [List.count_append, List.count_cons, cl, c1, c2]
  · rintro ⟨hws, hcount, l, d1, d2, hl, hd1, hd2, hs⟩
    rw [hs] at hcount hws
    simp only [List.count_append, List.count_cons, beq_self_eq_true, if_true] at hcount
    have hdot : (('.' : Char) == '@') = false := by decide
    simp only [hdot] at hcount
    have cl : l.count '@' = 0 := by omega
    have c1 : d1.count '@' = 0 := by omega
    have c2 : d2.count '@' = 0 := by omega
    refine ⟨l, d1, d2, hl, hd1, hd2, ?_, ?_, ?_, hs⟩
    · intro c hc
      refine ⟨hws c (by simp [hc]), ?_⟩
      rintro rfl
      exact List.count_eq_zero.mp cl hc
    · intro c hc
      refine ⟨hws c (by simp [hc]), ?_⟩
      rintro rfl
      exact List.count_eq_zero.mp c1 hc
    · intro c hc
      refine ⟨hws c (by simp [hc]), ?_⟩
      rintro rfl
      exact List.count_eq_zero.mp c2 hc

/-! ### The two outbound messages -/

theorem hasInfix_iff (needle hay : List Char) :
    hasInfix needle hay = true ↔ needle <:+: hay := by
  induction hay with
  | nil => simp [hasInfix]
  | cons c hay ih =>
    simp only [hasInfix, Bool.or_eq_true, ih, List.isPrefixOf_iff_prefix]
    rw [List.infix_cons_iff]

/-- The predicate `occursIn` is the substring relation: the hay is some text,
the needle, some text. -/
theorem occursIn_iff (needle hay : String) :
    occursIn needle hay ↔ ∃ before after : String, hay = before ++ needle ++ after := by
  unfold occursIn
  rw [hasInfix_iff]
  constructor
  · rintro ⟨s, t, h⟩
    refine ⟨⟨s⟩, ⟨t⟩, ?_⟩
    apply String.ext
    simp only [String.data_append]
    exact h.symm
  · rintro ⟨b, a, rfl⟩
    exact ⟨b.data, a.data, by simp [String.toList]⟩

theorem occursIn_middle (a n b : String) : occursIn n (a ++ n ++ b) :=
  (occursIn_iff _ _).mpr ⟨a, b, rfl⟩

theorem occursIn_append_right {n a : String} (b : String) (h : occursIn n a) :
    occursIn n (a ++ b) := by
  obtain ⟨x, y, rfl⟩ := (occursIn_iff _ _).mp h
  exact (occursIn_iff _ _).mpr ⟨x, y ++ b, by simp [String.append_assoc]⟩

theorem occursIn_suffix (a n : String) : occursIn n (a ++ n) :=
  (occursIn_iff _ _).mpr ⟨a, "", by simp⟩

theorem replaceNewlines_of_no_newline (message : String) (h : '\n' ∉ message.toList) :
    replaceNewlines message = message := by
  apply String.ext
  unfold replaceNewlines
  rw [String.data_join]
  have key : ∀ l : List Char, '\n' ∉ l →
      (List.map String.data
        (l.map fun c => if c = '\n' then "<br>" else String.singleton c)).flatten = l := by
    intro l
    induction l with
    | nil => intro _; rfl
    | cons c l ih =>
      intro hl
      have hc : c ≠ '\n' := fun hc => hl (by simp [hc])
      have hl2 : '\n' ∉ l := fun hx => hl (List.mem_cons_of_mem _ hx)
      simp only [List.map_cons, List.flatten_cons, if_neg hc, ih hl2]
      rfl
  exact key _ h

theorem replaceNewlines_eq_render (message : String) :
    replaceNewlines message = ⟨renderLineBreaks message.toList⟩ := by
  apply String.ext
  unfold replaceNewlines
  rw [String.data_join]
  have key : ∀ l : List Char,
      (List.map String.data
        (l.map fun c => if c = '\n' then "<br>" else String.singleton c)).flatten
        = renderLineBreaks l := by
    intro l
    induction l with
    | nil => rfl
    | cons c l ih =>
      by_cases hc : c = '\n'
      · simp only [List.map_cons, List.flatten_cons, if_pos hc, ih, renderLineBreaks]
        rfl
      · simp only [List.map_cons, List.flatten_cons, if_neg hc, ih, renderLineBreaks]
        rfl
  exact key _

/-! ### The mail library

The handler creates its transporter by `nodemailer.createTransporter(...)`
(line 45). The module has no property of that name: its factory is
`createTransport`. The call throws a `TypeError` at line 103, inside the
`try` block and before any message is built, so the `catch` clause answers
every valid submission, although the comments `// Send both emails` and the
log line `Emails sent successfully` say that a valid submission is mailed. -/

/-- With a mail library that has no property `createTransporter`, a valid
submission is answered with the 500 failure and no send is attempted. -/
theorem handler_without_factory (env : Env) (body : Body) (w : World) (hv : body.valid)
    (hf : env.nodemailer.createTransporter = none) :
    (contactHandler env body w).2 = failedToSend
      ∧ (contactHandler env body w).1.outbox = w.outbox := by
  have ht : createTransporter env
      = .error "TypeError: nodemailer.createTransporter is not a function" := by
    simp [createTransporter, hf]
  by_cases hsave : saveSucceeds env body w
  · rw [handler_transporter_error hv hsave ht]
    exact ⟨rfl, afterSave_outbox env body w⟩
  · obtain ⟨hc, e, he⟩ := save_error_of_not_saveSucceeds hsave
    rw [handler_save_error hv hc he]
    exact ⟨rfl, rfl⟩

/-- C3 (defect of the code): the submission of the specification scenario,
four non-empty strings with a matching email, handled with the mail library
as published and a store write that resolves, is answered with status 500
and "Failed to send message. Please try again later.", not with the 200
success; no send is attempted, and the record has been stored. -/
theorem contact_success_defect :
    janeDoe.valid
      ∧ (contactHandler envNoFactory janeDoe emptyWorld).2
          = ⟨500, false, "Failed to send message. Please try again later."⟩
      ∧ (contactHandler envNoFactory janeDoe emptyWorld).1.outbox = []
      ∧ (contactHandler envNoFactory janeDoe emptyWorld).1.store
          = [⟨"Jane Doe", "jane@example.com", "Hello", "Hi there", 1005, "new"⟩] := by
  have hv : janeDoe.valid :=
    ⟨"Jane Doe", "jane@example.com", "Hello", "Hi there", rfl, by decide, by decide, by decide,
      by decide, by decide⟩
  have h := handler_without_factory envNoFactory janeDoe emptyWorld hv rfl
  have hs : (contactHandler envNoFactory janeDoe emptyWorld).1.store
      = [⟨"Jane Doe", "jane@example.com", "Hello", "Hi there", 1005, "new"⟩] := by
    have ht : createTransporter envNoFactory
        = .error "TypeError: nodemailer.createTransporter is not a function" := rfl
    have hsave : saveSucceeds envNoFactory janeDoe emptyWorld := fun _ => rfl
    rw [handler_transporter_error hv hsave ht]
    rfl
  exact ⟨hv, h.1, h.2, hs⟩

/-! ### The two outbound messages -/

set_option maxRecDepth 100000 in
/-- C4, as stated, fails at the valid submission `twoLines`, whose message is
"Hi\nthere". With a mail library that has the factory, every send resolving
and `RECIPIENT_EMAIL` set to the empty string, two messages are delivered;
the message text occurs in neither html, which hold "Hi<br>there" instead,
and the first message is addressed to `EMAIL_USER`, not to
`RECIPIENT_EMAIL`. With the mail library as published no message is produced
at all. -/
theorem two_messages_counterexample :
    (∃ m1 m2, (contactHandler envEmptyRecipient twoLines emptyWorld).1.outbox
        = [⟨m1, true⟩, ⟨m2, true⟩]
      ∧ ¬ occursIn "Hi\nthere" m1.html ∧ ¬ occursIn "Hi\nthere" m2.html
      ∧ occursIn "Hi<br>there" m1.html ∧ occursIn "Hi<br>there" m2.html
      ∧ m1.to_ ≠ envEmptyRecipient.RECIPIENT_EMAIL
      ∧ m1.to_ = envEmptyRecipient.EMAIL_USER)
    ∧ (contactHandler envNoFactory twoLines emptyWorld).1.outbox = [] := by
  refine ⟨⟨_, _, rfl, ?_, ?_, ?_, ?_, ?_, ?_⟩, ?_⟩
  · decide
  · decide
  · decide
  · decide
  · decide
  · decide
  · rfl

/-- C4, amended: for every valid submission, whatever the mail library and
the store do, the messages the handler hands to `sendMail` are at most two,
in this order: the owner notification `m1`, and after `m1` was delivered the
auto-reply `m2`; the handler answers with success exactly when both were
delivered. `m1` is addressed to `RECIPIENT_EMAIL` when that is set and not
empty and to `EMAIL_USER` otherwise, `m2` to the submitted email. The
submitted subject occurs in the subject and in the html of `m1` and in the
html of `m2`; the submitted message with every newline rendered as `<br>`
occurs in both htmls, hence the submitted message itself when it has no
newline. -/
theorem contact_two_messages (env : Env) (w : World) (name email subject message : String)
    (hn : name ≠ "") (he : email ≠ "") (hs : subject ≠ "") (hm : message ≠ "")
    (hre : regexTest emailRegex email = true) :
    ∃ m1 m2 : MailOptions,
      mailOptionsToYou env ⟨.str name, .str email, .str subject, .str message⟩ = .ok m1
      ∧ mailOptionsToSender env ⟨.str name, .str email, .str subject, .str message⟩ = .ok m2
      ∧ ((contactHandler env ⟨.str name, .str email, .str subject, .str message⟩ w).1.outbox
            = w.outbox
        ∨ (contactHandler env ⟨.str name, .str email, .str subject, .str message⟩ w).1.outbox
            = w.outbox ++ [⟨m1, false⟩]
        ∨ (contactHandler env ⟨.str name, .str email, .str subject, .str message⟩ w).1.outbox
            = w.outbox ++ [⟨m1, true⟩, ⟨m2, false⟩]
        ∨ (contactHandler env ⟨.str name, .str email, .str subject, .str message⟩ w).1.outbox
            = w.outbox ++ [⟨m1, true⟩, ⟨m2, true⟩])
      ∧ ((contactHandler env ⟨.str name, .str email, .str subject, .str message⟩ w).2.success
            = true
          ↔ (contactHandler env ⟨.str name, .str email, .str subject, .str message⟩ w).1.outbox
            = w.outbox ++ [⟨m1, true⟩, ⟨m2, true⟩])
      ∧ m1.to_ = (if env.RECIPIENT_EMAIL.truthy then env.RECIPIENT_EMAIL else env.EMAIL_USER)
      ∧ m2.to_ = .str email
      ∧ occursIn subject m1.subject ∧ occursIn subject m1.html ∧ occursIn subject m2.html
      ∧ occursIn ⟨renderLineBreaks message.toList⟩ m1.html
      ∧ occursIn ⟨renderLineBreaks message.toList⟩ m2.html
      ∧ ('\n' ∉ message.toList → occursIn message m1.html ∧ occursIn message m2.html) := by
  have hv : Body.valid ⟨.str name, .str email, .str subject, .str message⟩ :=
    ⟨name, email, subject, message, rfl, hn, he, hs, hm, hre⟩
  obtain ⟨m1, m2, hm1, hm2⟩ := mailOptions_of_valid env hv
  have hshape := handler_outcome (w := w) hv hm1 hm2
  refine ⟨m1, m2, hm1, hm2, ?_, ?_, ?_⟩
  · rcases hshape with
      ⟨hc, e1, -, hh⟩ | ⟨-, e1, -, hh⟩ | ⟨-, t, e1, -, -, hh⟩ | ⟨-, t, e1, -, -, -, hh⟩
        | ⟨hsave, t, ht, h1, h2, hh⟩
    · exact Or.inl (by rw [hh])
    · exact Or.inl (by rw [hh]; exact afterSave_outbox _ _ _)
    · exact Or.inr (Or.inl (by rw [hh]; simp [afterSave_outbox]))
    · exact Or.inr (Or.inr (Or.inl (by rw [hh]; simp [afterSave_outbox])))
    · exact Or.inr (Or.inr (Or.inr (by rw [hh]; simp [afterSave_outbox])))
  · rcases hshape with
      ⟨hc, e1, -, hh⟩ | ⟨-, e1, -, hh⟩ | ⟨-, t, e1, -, -, hh⟩ | ⟨-, t, e1, -, -, -, hh⟩
        | ⟨hsave, t, ht, h1, h2, hh⟩
    all_goals rw [hh]
    all_goals simp [afterSave_outbox, failedToSend, messageSent]
  · simp only [mailOptionsToYou, JSVal.replaceNewlines, JSVal.toStr, Except.ok.injEq] at hm1
    simp only [mailOptionsToSender, JSVal.replaceNewlines, JSVal.toStr, Except.ok.injEq] at hm2
    subst hm1 hm2
    have a1 : occursIn (replaceNewlines message)
        (notifyHtml (.str name) (.str email) (.str subject) (replaceNewlines message)
          env.localeString) :=
      occursIn_append_right _ (occursIn_append_right _ (occursIn_append_right _
        (occursIn_suffix _ _)))
    have a2 : occursIn (replaceNewlines message)
        (replyHtml (.str name) (.str subject) (replaceNewlines message)) :=
      occursIn_append_right _ (occursIn_suffix _ _)
    refine ⟨rfl, rfl, occursIn_suffix _ _, ?_, ?_, ?_, ?_, ?_⟩
    · exact occursIn_append_right _ (occursIn_append_right _ (occursIn_append_right _
        (occursIn_append_right _ (occursIn_append_right _ (occursIn_suffix _ _)))))
    · exact occursIn_append_right _ (occursIn_append_right _ (occursIn_append_right _
        (occursIn_suffix _ _)))
    · show occursIn ⟨renderLineBreaks message.toList⟩
        (notifyHtml (.str name) (.str email) (.str subject) (replaceNewlines message)
          env.localeString)
      rw [← replaceNewlines_eq_render]
      exact a1
    · show occursIn ⟨renderLineBreaks message.toList⟩
        (replyHtml (.str name) (.str subject) (replaceNewlines message))
      rw [← replaceNewlines_eq_render]
      exact a2
    · intro hnl
      have hr := replaceNewlines_of_no_newline message hnl
      constructor
      · show occursIn message (notifyHtml (.str name) (.str email) (.str subject)
          (replaceNewlines message) env.localeString)
        rw [hr] at a1 ⊢
        exact a1
      · show occursIn message (replyHtml (.str name) (.str subject) (replaceNewlines message))
        rw [hr] at a2 ⊢
        exact a2

set_option maxRecDepth 100000 in
/-- C4, amended, at the submission `twoLines`, whose message has a newline,
with a mail library that has the factory and every send resolving: the two
messages are delivered in order, and both htmls hold "Hi<br>there". -/
theorem contact_two_messages_witness :
    ∃ m1 m2, (contactHandler (envWith reachable) twoLines emptyWorld).1.outbox
        = emptyWorld.outbox ++ [⟨m1, true⟩, ⟨m2, true⟩]
      ∧ m1.to_ = .str "owner@example.com" ∧ m2.to_ = .str "jane@example.com"
      ∧ occursIn "Hello" m1.subject ∧ occursIn "Hello" m1.html ∧ occursIn "Hello" m2.html
      ∧ occursIn "Hi<br>there" m1.html ∧ occursIn "Hi<br>there" m2.html := by
  obtain ⟨m1, m2, -, -, -, hsucc, hto1, hto2, hs1, hs2, hs3, hr1, hr2, -⟩ :=
    contact_two_messages (envWith reachable) emptyWorld "Jane Doe" "jane@example.com" "Hello"
      "Hi\nthere" (by decide) (by decide) (by decide) (by decide) (by decide)
  have hrender : (⟨renderLineBreaks "Hi\nthere".toList⟩ : String) = "Hi<br>there" := by decide
  rw [hrender] at hr1 hr2
  exact ⟨m1, m2, hsucc.mp rfl, hto1, hto2, hs1, hs2, hs3, hr1, hr2⟩

end Portfolio
